import Mathlib

/-!
Shallow embedding of the spaCy knowledge-base / candidate-selector core
(spacy/kb_new/kb.py, spacy/kb_new/kb_interface.py,
spacy/kb_new/candidate_selector.py) and of the MultiHashEmbed model
builder (spacy/ml/models/tok2vec.py), with theorems checking the
specification claims against it.

Python floats are modelled as rationals, Python ints as integers, and a
call that can raise is modelled with Except or with an explicit error
field. Opaque collaborator types (Vocab, Span) are modelled as records
carrying only the data this core reads from them.
-/

/-- Opaque stand-in for the spaCy Vocab collaborator: this core only
stores the handle, never inspects it. -/
structure Vocab where
  id : Nat
  deriving DecidableEq

/-- Opaque stand-in for a spaCy Span: this core only reads its text. -/
structure Span where
  text : String
  deriving DecidableEq

/-- Candidate (kb.py, lines 8-63): value object produced by a lookup,
pairing an alias, an entity, a prior probability, an entity frequency
and an entity embedding vector, plus a KnowledgeBase back reference.
The KB type is a parameter so the same record serves every
KnowledgeBase variant. -/
structure Candidate (KB : Type) where
  kb : KB
  _entity : String
  _entity_freq : Int
  _entity_vector : List Rat
  _alias : String
  _prior_prob : Rat
  deriving DecidableEq

/-- Python constructor of Candidate (kb.py, lines 17-38): plain field
assignment, no validation, cannot fail. -/
def Candidate.init {KB : Type} (kb : KB) (entity : String) (entity_freq : Int)
    (entity_vector : List Rat) (al : String) (prior_prob : Rat) : Candidate KB :=
  ⟨kb, entity, entity_freq, entity_vector, al, prior_prob⟩

/-- Property entity_ (kb.py, lines 40-43): returns the stored entity id. -/
def Candidate.entity_ {KB : Type} (c : Candidate KB) : String :=
  c._entity

/-- Property alias_ (kb.py, lines 45-48): returns the stored alias id. -/
def Candidate.alias_ {KB : Type} (c : Candidate KB) : String :=
  c._alias

/-- Property entity_freq (kb.py, lines 50-53): returns the stored
frequency. -/
def Candidate.entity_freq {KB : Type} (c : Candidate KB) : Int :=
  c._entity_freq

/-- Property entity_vector (kb.py, lines 55-58): the body is
return self.entity_vector, so evaluating the property invokes the same
property again. Modelled with explicit fuel; none stands for the
RecursionError Python raises once the call stack is exhausted. -/
def Candidate.entity_vector_eval {KB : Type} : Nat → Candidate KB → Option (List Rat)
  | 0, _ => none
  | n + 1, c => Candidate.entity_vector_eval n c

/-- Property prior_prob (kb.py, lines 60-63): the body is
return self.prior_prob, again invoking the same property. Modelled with
explicit fuel like entity_vector. -/
def Candidate.prior_prob_eval {KB : Type} : Nat → Candidate KB → Option Rat
  | 0, _ => none
  | n + 1, c => Candidate.prior_prob_eval n c

namespace KbPy

/-- KnowledgeBase (kb.py, lines 66-93): the abstract class concretely
holds the vocab and the entity vector length set at construction; all
other operations are abstract and have no body in kb.py. -/
structure KnowledgeBase where
  vocab : Vocab
  _entity_vector_length : Int
  deriving DecidableEq

/-- Python constructor (kb.py, lines 76-86): stores vocab and
entity_vector_length. -/
def KnowledgeBase.init (vocab : Vocab) (entity_vector_length : Int) : KnowledgeBase :=
  ⟨vocab, entity_vector_length⟩

/-- Property entity_vector_length (kb.py, lines 88-93): returns the
stored length. -/
def KnowledgeBase.entity_vector_length (kb : KnowledgeBase) : Int :=
  kb._entity_vector_length

end KbPy

namespace KbInterface

/-- Modelled from the spec: the state behind the abstract KnowledgeBase
interface of kb_interface.py, which itself carries no concrete state.
The spec describes an entity table with per-entity frequency and
embedding vector, and an alias table mapping each alias to its
(entity, prior probability) pairs; that is the data the abstract lookup
and append operations the claims are about need. -/
structure KBState where
  entities : List (String × Int × List Rat)
  aliases : List (String × List (String × Rat))
  deriving DecidableEq

/-- Recorded (entity, prior probability) pairs of an alias, none when
the alias is unknown. -/
def KBState.aliasPairs (kb : KBState) (al : String) : Option (List (String × Rat)) :=
  (kb.aliases.find? (fun e => e.1 == al)).map Prod.snd

/-- Sum of the prior probabilities of a list of pairs. -/
def priorSum (pairs : List (String × Rat)) : Rat :=
  (pairs.map Prod.snd).sum

/-- Modelled from the spec: frequency and vector recorded for an
entity, with a zero default for unknown entities. -/
def KBState.entity_info (kb : KBState) (entity : String) : Int × List Rat :=
  match kb.entities.find? (fun e => e.1 == entity) with
  | some e => e.2
  | none => (0, [])

/-- Modelled from the spec: contains_entity (kb_interface.py, lines
104-108) is abstract; the spec calls it a pure membership query with no
side effects. -/
def KBState.contains_entity (kb : KBState) (entity : String) : Bool :=
  (kb.entities.find? (fun e => e.1 == entity)).isSome

/-- Modelled from the spec: get_alias_candidates (kb_interface.py,
lines 132-140) is abstract; the spec says it returns one Candidate per
(entity, probability) pair recorded for the alias, and an empty
sequence (not an error) when the alias is unknown. -/
def KBState.get_alias_candidates (kb : KBState) (al : String) :
    List (Candidate KBState) :=
  match KBState.aliasPairs kb al with
  | none => []
  | some pairs =>
    pairs.map (fun pr =>
      Candidate.init kb pr.1 (KBState.entity_info kb pr.1).1
        (KBState.entity_info kb pr.1).2 al pr.2)

/-- Modelled from the spec: get_prior_prob (kb_interface.py, lines
169-177) is abstract; the spec says it returns the recorded probability
for the exact (entity, alias) pair, and 0.0 when the pair is not
recorded, never an error. The function is total and always returns a
rational, which is the never-raises guarantee in this embedding. -/
def KBState.get_prior_prob (kb : KBState) (entity al : String) : Rat :=
  match KBState.aliasPairs kb al with
  | none => 0
  | some pairs =>
    match pairs.find? (fun pr => pr.1 == entity) with
    | none => 0
    | some pr => pr.2

/-- Result of append_alias: an optional hard error, the warnings that
were emitted, and the knowledge-base state after the call. -/
structure AppendOutcome where
  error : Option String
  warnings : List String
  state : KBState
  deriving DecidableEq

/-- Modelled from the spec: append_alias (kb_interface.py, lines
116-130) is abstract. Per the spec: a probability sum that would exceed
1.0 is a hard failure that rejects the operation and leaves the alias
unchanged, checked first since validation errors propagate immediately
with no partial mutation; an unknown alias warns (suppressible) and, by
the implementation choice the spec leaves open, creates the alias with
the single new pair; a duplicate (alias, entity) pair warns and the
value is not duplicated; an unknown entity warns but the operation is
still attempted. -/
def KBState.append_alias (kb : KBState) (al entity : String) (prior_prob : Rat)
    (ignore_warnings : Bool) : AppendOutcome :=
  match KBState.aliasPairs kb al with
  | none =>
    ⟨none,
      if ignore_warnings then [] else ["alias not known in the knowledge base"],
      ⟨kb.entities, kb.aliases ++ [(al, [(entity, prior_prob)])]⟩⟩
  | some pairs =>
    if priorSum pairs + prior_prob > 1 then
      ⟨some "prior probability sum for the alias would exceed 1.0", [], kb⟩
    else if pairs.any (fun pr => pr.1 == entity) then
      ⟨none,
        if ignore_warnings then [] else ["the (alias, entity) pair is already recorded"],
        kb⟩
    else
      ⟨none,
        if KBState.contains_entity kb entity || ignore_warnings then []
        else ["entity not known in the knowledge base"],
        ⟨kb.entities,
          kb.aliases.map (fun e =>
            if e.1 == al then (e.1, e.2 ++ [(entity, prior_prob)]) else e)⟩⟩

/-- Method get_aliases_candidates as written (kb_interface.py, lines
142-151): the body consists of nothing but the docstring, so the Python
call returns None, modelled as none. -/
def KBState.get_aliases_candidates (kb : KBState) (aliases : List String) :
    Option (List (List (Candidate KBState))) :=
  none

/-- The behavior the spec describes for get_aliases_candidates:
order-preserving per-element delegation to get_alias_candidates. -/
def KBState.get_aliases_candidates_spec (kb : KBState) (aliases : List String) :
    List (List (Candidate KBState)) :=
  aliases.map (KBState.get_alias_candidates kb)

end KbInterface

/-- Error code E1044, raised when a CandidateSelector is invoked before
a KnowledgeBase has been bound (candidate_selector.py, line 52). -/
def E1044 : String := "E1044"

/-- CandidateSelector (candidate_selector.py, lines 11-64): holds an
optional KnowledgeBase binding and the abstract per-implementation
matching routine _select_candidates; K is the type of the keyword
arguments forwarded to it. -/
structure CandidateSelector (KB K : Type) where
  _kb : Option KB
  _select_candidates : List Span → K → List (List (Candidate KB))

/-- Python constructor (candidate_selector.py, lines 14-20): stores the
optional KnowledgeBase. -/
def CandidateSelector.init {KB K : Type} (kb : Option KB)
    (select : List Span → K → List (List (Candidate KB))) : CandidateSelector KB K :=
  ⟨kb, select⟩

/-- Property getter kb (candidate_selector.py, lines 22-27). -/
def CandidateSelector.kb {KB K : Type} (s : CandidateSelector KB K) : Option KB :=
  s._kb

/-- Property setter kb (candidate_selector.py, lines 29-34). -/
def CandidateSelector.set_kb {KB K : Type} (s : CandidateSelector KB K) (value : KB) :
    CandidateSelector KB K :=
  ⟨some value, s._select_candidates⟩

/-- Property _is_initialized (candidate_selector.py, lines 36-41):
whether a KnowledgeBase is bound. -/
def CandidateSelector._is_initialized {KB K : Type} (s : CandidateSelector KB K) : Bool :=
  s._kb.isSome

/-- Python call operator (candidate_selector.py, lines 43-54): raises
ValueError(Errors.E1044) when no KnowledgeBase is bound, otherwise
returns the result of the abstract matching routine on the spans and
keyword arguments. -/
def CandidateSelector.call {KB K : Type} (s : CandidateSelector KB K)
    (spans : List Span) (kwargs : K) : Except String (List (List (Candidate KB))) :=
  if ¬ s._is_initialized then
    Except.error E1044
  else
    Except.ok (s._select_candidates spans kwargs)

/-- Token attribute identifier: a string name or an integer id
(tok2vec.py, MultiHashEmbed signature). -/
inductive Attr where
  | name (s : String)
  | id (i : Int)
  deriving DecidableEq

/-- Shallow model of the thinc layer graph that MultiHashEmbed
assembles: only the combinators and layers the builder uses, each
recording the hyperparameters passed at the call site. -/
inductive Layer where
  | hashEmbed (nO nV column seed : Nat) (dropout : Rat)
  | featureExtractor (attrs : List Attr)
  | list2ragged
  | ragged2list
  | staticVectors (nO : Nat) (dropout : Rat)
  | maxout (nO nI nP : Nat) (dropout : Rat) (normalize : Bool)
  | withArray (inner : Layer)
  | chain (layers : List Layer)
  | concatenate (layers : List Layer)

mutual

/-- Number of hash-embedding tables contained in a layer graph. -/
def Layer.countHashEmbeds : Layer → Nat
  | Layer.hashEmbed _ _ _ _ _ => 1
  | Layer.featureExtractor _ => 0
  | Layer.list2ragged => 0
  | Layer.ragged2list => 0
  | Layer.staticVectors _ _ => 0
  | Layer.maxout _ _ _ _ _ => 0
  | Layer.withArray inner => Layer.countHashEmbeds inner
  | Layer.chain ls => Layer.countHashEmbedsList ls
  | Layer.concatenate ls => Layer.countHashEmbedsList ls

/-- Number of hash-embedding tables across a list of layer graphs. -/
def Layer.countHashEmbedsList : List Layer → Nat
  | [] => 0
  | l :: ls => Layer.countHashEmbeds l + Layer.countHashEmbedsList ls

end

/-- MultiHashEmbed (tok2vec.py, lines 100-171): raises ValueError when
rows and attrs have different lengths; otherwise builds one HashEmbed
table per attribute (the seed starts at 7 and is incremented before
each table, so table i gets seed 8 + i, row count rows[i] and column i)
and assembles the chain, optionally with a static-vectors branch. -/
def MultiHashEmbed (width : Nat) (attrs : List Attr) (rows : List Nat)
    (include_static_vectors : Bool) : Except String Layer :=
  if rows.length ≠ attrs.length then
    Except.error
      ("Mismatched lengths: " ++ toString rows.length ++ " vs " ++ toString attrs.length)
  else
    let embeddings := (List.range attrs.length).map
      (fun i => Layer.hashEmbed width (rows.getD i 0) i (8 + i) 0)
    let concat_size :=
      width * (embeddings.length + (if include_static_vectors then 1 else 0))
    if include_static_vectors then
      Except.ok (Layer.chain [
        Layer.concatenate [
          Layer.chain [Layer.featureExtractor attrs, Layer.list2ragged,
            Layer.withArray (Layer.concatenate embeddings)],
          Layer.staticVectors width 0],
        Layer.withArray (Layer.maxout width concat_size 3 0 true),
        Layer.ragged2list])
    else
      Except.ok (Layer.chain [
        Layer.featureExtractor attrs, Layer.list2ragged,
        Layer.withArray (Layer.concatenate embeddings),
        Layer.withArray (Layer.maxout width concat_size 3 0 true),
        Layer.ragged2list])

/-! Concrete inputs used by the witnesses and counterexamples. -/

/-- Concrete candidate used to exhibit the recursive accessor bodies. -/
def c2cand : Candidate Unit :=
  Candidate.init () "Q1" 5 [7/10, 3/10] "apple" 1

/-- Concrete knowledge-base state with two entities and the alias paris
recorded with probabilities 0.7 and 0.3, the example scenario of the
spec. -/
def parisKB : KbInterface.KBState :=
  ⟨[("Q90", 5, [1/10]), ("Q987", 3, [2/10])],
   [("paris", [("Q90", 7/10), ("Q987", 3/10)])]⟩

/-- Concrete selector with no bound KnowledgeBase and a matching
routine returning no candidates. -/
def c1sel : CandidateSelector Unit Unit :=
  CandidateSelector.init none (fun _ _ => [])

/-! Theorems settling the claims. -/

/-- C1: calling a CandidateSelector whose KnowledgeBase binding is
unset raises the initialization error E1044 and returns no result; once
a KnowledgeBase is bound, the call succeeds and returns exactly the
result of the abstract matching routine on the spans and keyword
arguments. -/
theorem candidate_selector_call_requires_kb (KB K : Type)
    (s : CandidateSelector KB K) (spans : List Span) (kwargs : K) :
    (s._kb = none → s.call spans kwargs = Except.error E1044) ∧
    (∀ k : KB, s._kb = some k →
      s.call spans kwargs = Except.ok (s._select_candidates spans kwargs)) := by
  constructor
  · intro h
    simp [CandidateSelector.call, CandidateSelector._is_initialized, h]
  · intro k h
    simp [CandidateSelector.call, CandidateSelector._is_initialized, h]

/-- Witness for C1: a concrete selector with no KnowledgeBase fails
with E1044, and the same selector succeeds after one is bound. -/
theorem candidate_selector_call_requires_kb_witness :
    c1sel.call [⟨"Berlin"⟩] () = Except.error E1044 ∧
    (c1sel.set_kb ()).call [⟨"Berlin"⟩] () = Except.ok [] :=
  ⟨(candidate_selector_call_requires_kb Unit Unit c1sel [⟨"Berlin"⟩] ()).1 rfl,
   (candidate_selector_call_requires_kb Unit Unit (c1sel.set_kb ()) [⟨"Berlin"⟩] ()).2 () rfl⟩

/-- C2: the entity_vector and prior_prob accessors never return the
construction-time values: their bodies re-invoke the same property, so
for every fuel bound the evaluation of either accessor on a concrete
candidate fails to produce any value. -/
theorem candidate_vector_prob_accessors_diverge :
    ∀ fuel : Nat,
      Candidate.entity_vector_eval fuel c2cand = none ∧
      Candidate.prior_prob_eval fuel c2cand = none := by
  intro fuel
  induction fuel with
  | zero => exact ⟨rfl, rfl⟩
  | succ n ih => exact ih

/-- C3: the default get_aliases_candidates does not delegate per
element: its body is only a docstring, so on a concrete knowledge base
and the alias list containing paris it returns no value at all, while
the per-element delegation the spec describes returns one candidate
list holding the two recorded candidates. -/
theorem get_aliases_candidates_none_not_delegation :
    KbInterface.KBState.get_aliases_candidates parisKB ["paris"] = none ∧
    (KbInterface.KBState.get_aliases_candidates_spec parisKB ["paris"]).length = 1 ∧
    (KbInterface.KBState.get_aliases_candidates_spec parisKB ["paris"]).map List.length = [2] :=
  ⟨rfl, rfl, rfl⟩

/-- C4: when an alias has recorded pairs and the new prior probability
would push the probability sum above 1.0, append_alias reports a hard
error with no warning, and the candidates observable through
get_alias_candidates are unchanged by the call. -/
theorem append_alias_exceeding_sum_fails_unchanged
    (kb : KbInterface.KBState) (al entity : String) (prior_prob : Rat) (ig : Bool)
    (pairs : List (String × Rat))
    (hrec : KbInterface.KBState.aliasPairs kb al = some pairs)
    (hex : KbInterface.priorSum pairs + prior_prob > 1) :
    (KbInterface.KBState.append_alias kb al entity prior_prob ig).error.isSome = true ∧
    (KbInterface.KBState.append_alias kb al entity prior_prob ig).warnings = [] ∧
    KbInterface.KBState.get_alias_candidates
        (KbInterface.KBState.append_alias kb al entity prior_prob ig).state al
      = KbInterface.KBState.get_alias_candidates kb al := by
  have h : KbInterface.KBState.append_alias kb al entity prior_prob ig =
      ⟨some "prior probability sum for the alias would exceed 1.0", [], kb⟩ := by
    simp only [KbInterface.KBState.append_alias, hrec]
    rw [if_pos hex]
  rw [h]
  exact ⟨rfl, rfl, rfl⟩

/-- Witness for C4: appending (paris, Q90, 0.35) to the concrete
knowledge base where paris already carries 0.7 + 0.3 fails and leaves
the paris candidates unchanged. -/
theorem append_alias_exceeding_sum_fails_unchanged_witness :
    (KbInterface.KBState.append_alias parisKB "paris" "Q90" (35/100) false).error.isSome = true ∧
    (KbInterface.KBState.append_alias parisKB "paris" "Q90" (35/100) false).warnings = [] ∧
    KbInterface.KBState.get_alias_candidates
        (KbInterface.KBState.append_alias parisKB "paris" "Q90" (35/100) false).state "paris"
      = KbInterface.KBState.get_alias_candidates parisKB "paris" :=
  append_alias_exceeding_sum_fails_unchanged parisKB "paris" "Q90" (35/100) false
    [("Q90", 7/10), ("Q987", 3/10)] rfl (by norm_num [KbInterface.priorSum])

/-- C5: entity_vector_length returns exactly the value supplied at
construction; the class defines no operation that writes the field
after construction, so it is fixed for the lifetime of the instance. -/
theorem entity_vector_length_fixed :
    ∀ (v : Vocab) (l : Int),
      (KbPy.KnowledgeBase.init v l).entity_vector_length = l :=
  fun _ _ => rfl

/-- C6: the accessors entity_, alias_ and entity_freq return exactly
the construction-time entity id, alias id and entity frequency; the
record defines no mutating operation. -/
theorem candidate_id_accessors_fixed (KB : Type) (kb : KB) (e : String) (f : Int)
    (v : List Rat) (a : String) (p : Rat) :
    (Candidate.init kb e f v a p).entity_ = e ∧
    (Candidate.init kb e f v a p).alias_ = a ∧
    (Candidate.init kb e f v a p).entity_freq = f :=
  ⟨rfl, rfl, rfl⟩

/-- C7: get_prior_prob returns the recorded probability when the
(entity, alias) pair is recorded and 0 when the alias or the pair is
unknown; being a total function into the rationals, it can never
raise. -/
theorem get_prior_prob_recorded_or_zero (kb : KbInterface.KBState) (entity al : String) :
    (∀ pairs pr, KbInterface.KBState.aliasPairs kb al = some pairs →
        pairs.find? (fun e => e.1 == entity) = some pr →
        KbInterface.KBState.get_prior_prob kb entity al = pr.2) ∧
    (KbInterface.KBState.aliasPairs kb al = none →
        KbInterface.KBState.get_prior_prob kb entity al = 0) ∧
    (∀ pairs, KbInterface.KBState.aliasPairs kb al = some pairs →
        pairs.find? (fun e => e.1 == entity) = none →
        KbInterface.KBState.get_prior_prob kb entity al = 0) := by
  refine ⟨?_, ?_, ?_⟩
  · intro pairs pr h1 h2
    simp only [KbInterface.KBState.get_prior_prob, h1, h2]
  · intro h1
    simp only [KbInterface.KBState.get_prior_prob, h1]
  · intro pairs h1 h2
    simp only [KbInterface.KBState.get_prior_prob, h1, h2]

/-- Witness for C7: on the concrete knowledge base, the recorded pair
(Q90, paris) yields its probability 0.7 and a wholly unknown pair
yields 0. -/
theorem get_prior_prob_recorded_or_zero_witness :
    KbInterface.KBState.get_prior_prob parisKB "Q90" "paris" = 7/10 ∧
    KbInterface.KBState.get_prior_prob parisKB "Q00" "berlin" = 0 :=
  ⟨(get_prior_prob_recorded_or_zero parisKB "Q90" "paris").1
      [("Q90", 7/10), ("Q987", 3/10)] ("Q90", 7/10) rfl rfl,
   (get_prior_prob_recorded_or_zero parisKB "Q00" "berlin").2.1 rfl⟩

/-- C8: assigning the kb property and then reading it returns exactly
the assigned KnowledgeBase, whether the selector was constructed with a
KnowledgeBase or with None. -/
theorem selector_kb_set_then_get (KB K : Type) (kb0 : Option KB)
    (select : List Span → K → List (List (Candidate KB))) (k : KB) :
    ((CandidateSelector.init kb0 select).set_kb k).kb = some k :=
  rfl

/-- C9: the Candidate constructor is a total function that stores every
argument unchanged: it succeeds on any combination of values, including
a negative frequency, a probability above one and a vector of any
length, and performs no validation. -/
theorem candidate_construction_total (KB : Type) (kb : KB) (e : String) (f : Int)
    (v : List Rat) (a : String) (p : Rat) :
    (Candidate.init kb e f v a p).kb = kb ∧
    (Candidate.init kb e f v a p)._entity = e ∧
    (Candidate.init kb e f v a p)._entity_freq = f ∧
    (Candidate.init kb e f v a p)._entity_vector = v ∧
    (Candidate.init kb e f v a p)._alias = a ∧
    (Candidate.init kb e f v a p)._prior_prob = p :=
  ⟨rfl, rfl, rfl, rfl, rfl, rfl⟩

/-- Helper: mapping the hash-embed constructor over an index list gives
one table per index. -/
theorem countHashEmbedsList_map_hashEmbed (width : Nat) (rows : List Nat) (l : List Nat) :
    Layer.countHashEmbedsList
        (l.map (fun i => Layer.hashEmbed width (rows.getD i 0) i (8 + i) 0))
      = l.length := by
  induction l with
  | nil => rfl
  | cons x xs ih =>
    simp only [List.map_cons, Layer.countHashEmbedsList, Layer.countHashEmbeds, ih,
      List.length_cons]
    omega

/-- C10: MultiHashEmbed fails with a ValueError and constructs no model
when rows and attrs have different lengths; when the lengths are equal
it returns a model whose layer graph contains exactly one
hash-embedding table per attribute. -/
theorem multi_hash_embed_length_check (width : Nat) (attrs : List Attr)
    (rows : List Nat) (isv : Bool) :
    (rows.length ≠ attrs.length →
      ∃ msg, MultiHashEmbed width attrs rows isv = Except.error msg) ∧
    (rows.length = attrs.length →
      (MultiHashEmbed width attrs rows isv).toOption.map Layer.countHashEmbeds
        = some attrs.length) := by
  constructor
  · intro hne
    exact ⟨"Mismatched lengths: " ++ toString rows.length ++ " vs " ++ toString attrs.length,
      by simp only [MultiHashEmbed, if_pos hne]⟩
  · intro heq
    have hne2 : ¬ rows.length ≠ attrs.length := fun h => h heq
    cases isv with
    | false =>
      simp only [MultiHashEmbed, if_neg hne2, if_neg Bool.false_ne_true,
        Except.toOption, Option.map_some']
      simp only [Layer.countHashEmbeds, Layer.countHashEmbedsList,
        countHashEmbedsList_map_hashEmbed, List.length_range, Nat.add_zero,
        Nat.zero_add, Option.some.injEq]
    | true =>
      simp only [MultiHashEmbed, if_neg hne2, reduceIte, Except.toOption,
        Option.map_some']
      simp only [Layer.countHashEmbeds, Layer.countHashEmbedsList,
        countHashEmbedsList_map_hashEmbed, List.length_range, Nat.add_zero,
        Nat.zero_add, Option.some.injEq]

/-- Witness for C10: with two attributes and one row count the builder
fails; with two attributes and two row counts it returns a model with
exactly two hash-embedding tables. -/
theorem multi_hash_embed_length_check_witness :
    (∃ msg, MultiHashEmbed 96 [Attr.name "NORM", Attr.name "PREFIX"] [2000] false
      = Except.error msg) ∧
    (MultiHashEmbed 96 [Attr.name "NORM", Attr.name "PREFIX"] [2000, 1000] false).toOption.map
        Layer.countHashEmbeds
      = some 2 :=
  ⟨(multi_hash_embed_length_check 96 [Attr.name "NORM", Attr.name "PREFIX"] [2000] false).1
      (by decide),
   (multi_hash_embed_length_check 96 [Attr.name "NORM", Attr.name "PREFIX"] [2000, 1000] false).2
      rfl⟩
